import Mathlib

/-!
Shallow embedding of the advanced-vault staking program
(`programs/adv-vault/src/lib.rs`) and verification of its specification.

Machine integers are modelled as `Nat` (u64/u8) and `Int` (i64), with the
checked arithmetic of the source made explicit via `Option` and the
two's-complement bounds `U64_MAX`, `I64_MIN`, `I64_MAX`.  Fallible
instructions return `Except`.  The external SPL token transfer (the spec's
Custody Adapter) is not part of the source tree, so it is modelled from the
spec.  Anchor's transaction semantics (any failing step reverts the whole
instruction, spec §5 and §4.2 "Failure semantics") are modelled by the
`Except` monad: an `error` result carries no new state and no transfer.
-/

/-- Largest value of an unsigned 64-bit integer. -/
def U64_MAX : Nat := 2 ^ 64 - 1

/-- Smallest value of a signed 64-bit integer. -/
def I64_MIN : Int := -(2 ^ 63)

/-- Largest value of a signed 64-bit integer. -/
def I64_MAX : Int := 2 ^ 63 - 1

/-- Rust `u64::checked_mul`: `some (a * b)` when the product fits in 64
unsigned bits, `none` on overflow. -/
def checked_mul_u64 (a b : Nat) : Option Nat :=
  if a * b ≤ U64_MAX then some (a * b) else none

/-- Rust `i64::checked_add`: `some (a + b)` when the sum fits in 64 signed
bits, `none` on overflow. -/
def checked_add_i64 (a b : Int) : Option Int :=
  if I64_MIN ≤ a + b ∧ a + b ≤ I64_MAX then some (a + b) else none

/-- The `VaultError` error codes of the program (`#[error_code]` enum). -/
inductive VaultError
  | InvalidAmount
  | InvalidStakePeriod
  | StillLocked
  | AlreadyWithdrawn
  | UnauthorizedUser
  | MathOverflow
  deriving DecidableEq

/-- Errors surfaced by a whole instruction: either a program `VaultError`
or the external Token Ledger's insufficient-funds failure. -/
inductive TxError
  | vaultErr : VaultError → TxError
  | insufficientFunds : TxError
  deriving DecidableEq

/-- The `UserStake` account (the spec's StakePosition).  `user` (an account
public key) is abstracted to a `Nat` identity. -/
structure UserStake where
  user : Nat
  amount : Nat
  stake_years : Nat
  stake_time : Int
  unlock_time : Int
  is_withdrawn : Bool
  bump : Nat
  deriving DecidableEq

/-- Seconds in a 365-day year, `365 * 24 * 60 * 60` from `create_stake`. -/
def seconds_per_year : Int := 365 * 24 * 60 * 60

/-- `UserStake::create_stake`: assigns every field of the account, computing
`unlock_time = current_time + stake_years * seconds_per_year` with
`checked_add`, which fails with `MathOverflow` on i64 overflow. -/
def UserStake.create_stake (user : Nat) (amount : Nat) (stake_years : Nat)
    (current_time : Int) (bump : Nat) : Except VaultError UserStake :=
  match checked_add_i64 current_time ((stake_years : Int) * seconds_per_year) with
  | none => .error .MathOverflow
  | some unlock_time =>
      .ok { user := user, amount := amount, stake_years := stake_years,
            stake_time := current_time, unlock_time := unlock_time,
            is_withdrawn := false, bump := bump }

/-- `UserStake::check_if_unlocked`: fails `AlreadyWithdrawn` when the stake
is already withdrawn, then `StillLocked` when `current_time < unlock_time`. -/
def UserStake.check_if_unlocked (st : UserStake) (current_time : Int) :
    Except VaultError Unit :=
  if st.is_withdrawn then .error .AlreadyWithdrawn
  else if current_time < st.unlock_time then .error .StillLocked
  else .ok ()

/-- `UserStake::get_multiplier`: `1` for a 1-year stake, `2` for a 2-year
stake, `1` for any other stored value (the fallback `_` branch). -/
def UserStake.get_multiplier (st : UserStake) : Nat :=
  match st.stake_years with
  | 1 => 1
  | 2 => 2
  | _ => 1

/-- `UserStake::calculate_total_return`: `amount * multiplier` via
`checked_mul`, failing with `MathOverflow` on u64 overflow. -/
def UserStake.calculate_total_return (st : UserStake) : Except VaultError Nat :=
  match checked_mul_u64 st.amount st.get_multiplier with
  | none => .error .MathOverflow
  | some r => .ok r

/-- `UserStake::mark_as_withdrawn`: sets `is_withdrawn` to `true`. -/
def UserStake.mark_as_withdrawn (st : UserStake) : UserStake :=
  { st with is_withdrawn := true }

/-- Token balances of the two SPL accounts an instruction touches: the
user's associated token account and the vault's custody account. -/
structure Balances where
  userTokens : Nat
  vaultTokens : Nat
  deriving DecidableEq

/-- Modelled from the spec: the external Custody Adapter / Token Ledger
transfer (`token::transfer`, not in the source tree).  Spec §4.3: requires
`from` balance ≥ `amount`, else fails `InsufficientFunds`; atomically debits
`from` and credits `to`.  The authority argument is elided: the program
always presents a structurally valid authority (the user's signature on
deposits, the vault's derivation-proof seeds on withdrawals). -/
def moveTokens (fromBal toBal amount : Nat) : Except TxError (Nat × Nat) :=
  if fromBal < amount then .error .insufficientFunds
  else .ok (fromBal - amount, toBal + amount)

/-- Observable steps of the `stake_tokens` instruction, recorded in the
order the source executes them, to settle ordering claims. -/
inductive StakeStep
  | custodyTransferInvoked
  | maturityComputed
  | positionPersisted
  | eventEmitted
  deriving DecidableEq

/-- Result state of a successful `stake_tokens`. -/
structure StakeOutcome where
  user_stake : UserStake
  balances : Balances
  deriving DecidableEq

/-- The `stake_tokens` instruction, with its step trace.  Source order:
`require!(amount > 0)` (`InvalidAmount`), `require!(1 <= stake_years <= 2)`
(`InvalidStakePeriod`), the user → vault custody transfer, then
`create_stake` (which computes the maturity with `checked_add` and persists
the position), then the `StakeCreatedEvent`. -/
def stake_tokens (user : Nat) (amount : Nat) (stake_years : Nat)
    (bal : Balances) (now : Int) (bump : Nat) :
    List StakeStep × Except TxError StakeOutcome :=
  if amount = 0 then ([], .error (.vaultErr .InvalidAmount))
  else if ¬ (1 ≤ stake_years ∧ stake_years ≤ 2) then
    ([], .error (.vaultErr .InvalidStakePeriod))
  else
    match moveTokens bal.userTokens bal.vaultTokens amount with
    | .error e => ([.custodyTransferInvoked], .error e)
    | .ok (u, v) =>
        match UserStake.create_stake user amount stake_years now bump with
        | .error e =>
            ([.custodyTransferInvoked, .maturityComputed], .error (.vaultErr e))
        | .ok st =>
            ([.custodyTransferInvoked, .maturityComputed, .positionPersisted,
              .eventEmitted],
             .ok { user_stake := st, balances := { userTokens := u, vaultTokens := v } })

/-- Result state of a successful `withdraw_stake`, with the amount the
custody transfer moved from the vault to the user. -/
structure WithdrawOutcome where
  user_stake : UserStake
  balances : Balances
  transferred : Nat
  deriving DecidableEq

/-- The `withdraw_stake` instruction.  Anchor's `has_one = user @
VaultError::UnauthorizedUser` account constraint (checked before the handler
body runs) is the first guard; the handler then runs `check_if_unlocked`,
`calculate_total_return`, the vault-custody → user transfer signed with the
vault's seeds, and `mark_as_withdrawn`. -/
def withdraw_stake (caller : Nat) (st : UserStake) (bal : Balances)
    (now : Int) : Except TxError WithdrawOutcome :=
  if st.user ≠ caller then .error (.vaultErr .UnauthorizedUser)
  else
    match st.check_if_unlocked now with
    | .error e => .error (.vaultErr e)
    | .ok _ =>
        match st.calculate_total_return with
        | .error e => .error (.vaultErr e)
        | .ok total_return =>
            match moveTokens bal.vaultTokens bal.userTokens total_return with
            | .error e => .error e
            | .ok (v, u) =>
                .ok { user_stake := st.mark_as_withdrawn,
                      balances := { userTokens := u, vaultTokens := v },
                      transferred := total_return }

/-- The state after a `withdraw_stake` transaction: on success the new
account and balances, on failure the originals unchanged (the host reverts
the whole transaction, spec §4.2 "Failure semantics" and §5). -/
def applyWithdraw (caller : Nat) (st : UserStake) (bal : Balances)
    (now : Int) : UserStake × Balances :=
  match withdraw_stake caller st bal now with
  | .ok out => (out.user_stake, out.balances)
  | .error _ => (st, bal)

/-- Tokens moved from vault custody to the user by a `withdraw_stake`
transaction: zero when the transaction fails (host revert). -/
def withdrawTransferred (caller : Nat) (st : UserStake) (bal : Balances)
    (now : Int) : Nat :=
  match withdraw_stake caller st bal now with
  | .ok out => out.transferred
  | .error _ => 0

deriving instance DecidableEq for Except

/-- The `UserStake` record a successful `stake_tokens` persists. -/
def stakedPosition (user amount stake_years : Nat) (now : Int) (bump : Nat) :
    UserStake :=
  { user := user, amount := amount, stake_years := stake_years,
    stake_time := now,
    unlock_time := now + (stake_years : Int) * seconds_per_year,
    is_withdrawn := false, bump := bump }

lemma U64_MAX_eq : U64_MAX = 18446744073709551615 := by norm_num [U64_MAX]

lemma I64_MIN_eq : I64_MIN = -9223372036854775808 := by norm_num [I64_MIN]

lemma I64_MAX_eq : I64_MAX = 9223372036854775807 := by norm_num [I64_MAX]

lemma seconds_per_year_eq : seconds_per_year = 31536000 := by
  norm_num [seconds_per_year]

/-- The Custody Adapter only fails with `insufficientFunds`. -/
lemma moveTokens_error_eq (f t a : Nat) (e : TxError)
    (h : moveTokens f t a = .error e) : e = .insufficientFunds := by
  unfold moveTokens at h
  split at h <;> simp_all

/-- A successful Custody Adapter call debits `from` and credits `to`. -/
lemma moveTokens_ok_eq (f t a : Nat) (p : Nat × Nat)
    (h : moveTokens f t a = .ok p) : a ≤ f ∧ p = (f - a, t + a) := by
  unfold moveTokens at h
  split at h
  · simp at h
  · rename_i hc
    simp only [Except.ok.injEq] at h
    exact ⟨by omega, h.symm⟩

/-- `create_stake` only fails with `MathOverflow`. -/
lemma create_stake_error_eq (u a y : Nat) (n : Int) (b : Nat) (e : VaultError)
    (h : UserStake.create_stake u a y n b = .error e) : e = .MathOverflow := by
  unfold UserStake.create_stake at h
  split at h <;> simp_all

/-- Inversion for a successful `stake_tokens`: the guards all passed, the
user balance covered the deposit, the maturity addition stayed in i64 range,
and the outcome is exactly the persisted position plus the moved balances. -/
lemma stake_tokens_ok_elim (user amount stake_years : Nat) (bal : Balances)
    (now : Int) (bump : Nat) (out : StakeOutcome)
    (hok : (stake_tokens user amount stake_years bal now bump).2 = .ok out) :
    0 < amount ∧ 1 ≤ stake_years ∧ stake_years ≤ 2 ∧ amount ≤ bal.userTokens ∧
    I64_MIN ≤ now + (stake_years : Int) * seconds_per_year ∧
    now + (stake_years : Int) * seconds_per_year ≤ I64_MAX ∧
    out = { user_stake := stakedPosition user amount stake_years now bump,
            balances := { userTokens := bal.userTokens - amount,
                          vaultTokens := bal.vaultTokens + amount } } := by
  unfold stake_tokens at hok
  split at hok
  · simp at hok
  · split at hok
    · simp at hok
    · rename_i hamt hyrs
      rcases hmv : moveTokens bal.userTokens bal.vaultTokens amount with e | uv
      · rw [hmv] at hok; simp at hok
      · rw [hmv] at hok
        rcases hcs : UserStake.create_stake user amount stake_years now bump
          with e | st
        · rw [hcs] at hok; simp at hok
        · rw [hcs] at hok
          simp at hok
          unfold moveTokens at hmv
          split at hmv
          · simp at hmv
          · rename_i hins
            unfold UserStake.create_stake checked_add_i64 at hcs
            split at hcs
            · simp at hcs
            · rename_i unlock heq
              rw [not_not] at hyrs
              simp only [Except.ok.injEq] at hcs hmv
              split at heq
              · rename_i hrange
                simp only [Option.some.injEq] at heq
                subst heq
                subst hcs
                subst hmv
                subst hok
                refine ⟨by omega, hyrs.1, hyrs.2, by omega, hrange.1,
                  hrange.2, ?_⟩
                simp [stakedPosition]
              · simp at heq

/-- Every run of `stake_tokens` has one of five shapes: one of the two
validation failures with an empty trace, an insufficient-funds failure after
the custody call, a `MathOverflow` after custody call and maturity
computation, or full success. -/
lemma stake_tokens_shape (user amount stake_years : Nat) (bal : Balances)
    (now : Int) (bump : Nat) :
    stake_tokens user amount stake_years bal now bump =
      ([], .error (.vaultErr .InvalidAmount)) ∨
    stake_tokens user amount stake_years bal now bump =
      ([], .error (.vaultErr .InvalidStakePeriod)) ∨
    stake_tokens user amount stake_years bal now bump =
      ([.custodyTransferInvoked], .error .insufficientFunds) ∨
    stake_tokens user amount stake_years bal now bump =
      ([.custodyTransferInvoked, .maturityComputed],
       .error (.vaultErr .MathOverflow)) ∨
    ∃ out, stake_tokens user amount stake_years bal now bump =
      ([.custodyTransferInvoked, .maturityComputed, .positionPersisted,
        .eventEmitted], .ok out) := by
  unfold stake_tokens
  split
  · left; rfl
  · split
    · right; left; rfl
    · rcases hmv : moveTokens bal.userTokens bal.vaultTokens amount
        with e | ⟨u, v⟩
      · right; right; left
        simp [hmv, moveTokens_error_eq _ _ _ _ hmv]
      · rcases hcs : UserStake.create_stake user amount stake_years now bump
          with e | st
        · right; right; right; left
          simp [hmv, hcs, create_stake_error_eq _ _ _ _ _ _ hcs]
        · right; right; right; right
          refine ⟨{ user_stake := st,
                    balances := { userTokens := u, vaultTokens := v } }, ?_⟩
          simp [hmv, hcs]

/-- C6: `get_multiplier` returns 1 when the stored `stake_years` is 1,
2 when it is 2, and 1 on the fallback branch for any other stored value;
it is a total function, so it never fails. -/
theorem claim_C6_multiplier (st : UserStake) :
    (st.stake_years = 1 → st.get_multiplier = 1) ∧
    (st.stake_years = 2 → st.get_multiplier = 2) ∧
    (st.stake_years ≠ 1 → st.stake_years ≠ 2 → st.get_multiplier = 1) := by
  unfold UserStake.get_multiplier
  refine ⟨fun h => by simp [h], fun h => by simp [h], fun h1 h2 => ?_⟩
  split <;> simp_all

/-- Witness for C6 at stored term values 1, 2 and 7. -/
theorem claim_C6_multiplier_witness :
    UserStake.get_multiplier ⟨0, 5, 1, 0, 0, false, 0⟩ = 1 ∧
    UserStake.get_multiplier ⟨0, 5, 2, 0, 0, false, 0⟩ = 2 ∧
    UserStake.get_multiplier ⟨0, 5, 7, 0, 0, false, 0⟩ = 1 :=
  ⟨(claim_C6_multiplier _).1 rfl, (claim_C6_multiplier _).2.1 rfl,
   (claim_C6_multiplier _).2.2 (by decide) (by decide)⟩

/-- C9: for a position whose stored `stake_years` is not 2 the multiplier
is 1, so `calculate_total_return` cannot hit `MathOverflow` and returns
exactly the principal. -/
theorem claim_C9_one_year_never_overflows (st : UserStake)
    (h2 : st.stake_years ≠ 2) (hb : st.amount ≤ U64_MAX) :
    st.calculate_total_return = .ok st.amount := by
  have hm : st.get_multiplier = 1 := by
    unfold UserStake.get_multiplier
    split <;> simp_all
  unfold UserStake.calculate_total_return checked_mul_u64
  rw [hm]
  simp [hb]

/-- Witness for C9 on a concrete 1-year position. -/
theorem claim_C9_one_year_never_overflows_witness :
    UserStake.calculate_total_return ⟨3, 1000, 1, 0, 31536000, false, 0⟩ =
      .ok 1000 :=
  claim_C9_one_year_never_overflows ⟨3, 1000, 1, 0, 31536000, false, 0⟩
    (by decide) (by decide)

/-- C1: once `is_withdrawn` is true the position is terminal: the owner's
`withdraw_stake` fails with `AlreadyWithdrawn`, no caller can make it
succeed (so it never pays out twice), the state is left unchanged and zero
tokens move. -/
theorem claim_C1_withdrawn_terminal (caller : Nat) (st : UserStake)
    (bal : Balances) (now : Int) (hw : st.is_withdrawn = true) :
    (st.user = caller →
      withdraw_stake caller st bal now =
        .error (.vaultErr .AlreadyWithdrawn)) ∧
    (∀ out, withdraw_stake caller st bal now ≠ .ok out) ∧
    applyWithdraw caller st bal now = (st, bal) ∧
    withdrawTransferred caller st bal now = 0 := by
  have hchk : st.check_if_unlocked now = .error .AlreadyWithdrawn := by
    unfold UserStake.check_if_unlocked
    simp [hw]
  have hmain :
      withdraw_stake caller st bal now =
        .error (.vaultErr .AlreadyWithdrawn) ∨
      withdraw_stake caller st bal now =
        .error (.vaultErr .UnauthorizedUser) := by
    unfold withdraw_stake
    by_cases hu : st.user = caller
    · left; simp [hu, hchk]
    · right; simp [hu]
  refine ⟨fun hu => ?_, fun out hok => ?_, ?_, ?_⟩
  · unfold withdraw_stake
    simp [hu, hchk]
  · rcases hmain with h | h <;> rw [h] at hok <;> simp at hok
  · unfold applyWithdraw
    rcases hmain with h | h <;> rw [h]
  · unfold withdrawTransferred
    rcases hmain with h | h <;> rw [h]

/-- Witness for C1 on a concrete already-withdrawn position. -/
theorem claim_C1_withdrawn_terminal_witness :
    withdraw_stake 7 ⟨7, 100, 2, 0, 50, true, 0⟩ ⟨0, 1000⟩ 60 =
      .error (.vaultErr .AlreadyWithdrawn) ∧
    applyWithdraw 7 ⟨7, 100, 2, 0, 50, true, 0⟩ ⟨0, 1000⟩ 60 =
      (⟨7, 100, 2, 0, 50, true, 0⟩, ⟨0, 1000⟩) ∧
    withdrawTransferred 7 ⟨7, 100, 2, 0, 50, true, 0⟩ ⟨0, 1000⟩ 60 = 0 :=
  ⟨(claim_C1_withdrawn_terminal 7 ⟨7, 100, 2, 0, 50, true, 0⟩ ⟨0, 1000⟩ 60
      rfl).1 rfl,
   (claim_C1_withdrawn_terminal 7 ⟨7, 100, 2, 0, 50, true, 0⟩ ⟨0, 1000⟩ 60
      rfl).2.2.1,
   (claim_C1_withdrawn_terminal 7 ⟨7, 100, 2, 0, 50, true, 0⟩ ⟨0, 1000⟩ 60
      rfl).2.2.2⟩

/-- C3: `withdraw_stake` fails `UnauthorizedUser` whenever the caller is not
the recorded owner, regardless of lock/maturity/withdrawn state; for the
owner it fails `AlreadyWithdrawn` when already withdrawn and `StillLocked`
when the clock is strictly before `unlock_time`; and every failing run
leaves the state unchanged and moves zero tokens. -/
theorem claim_C3_withdraw_guards (caller : Nat) (st : UserStake)
    (bal : Balances) (now : Int) :
    (st.user ≠ caller →
      withdraw_stake caller st bal now =
        .error (.vaultErr .UnauthorizedUser)) ∧
    (st.user = caller → st.is_withdrawn = true →
      withdraw_stake caller st bal now =
        .error (.vaultErr .AlreadyWithdrawn)) ∧
    (st.user = caller → st.is_withdrawn = false → now < st.unlock_time →
      withdraw_stake caller st bal now = .error (.vaultErr .StillLocked)) ∧
    (∀ e, withdraw_stake caller st bal now = .error e →
      applyWithdraw caller st bal now = (st, bal) ∧
      withdrawTransferred caller st bal now = 0) := by
  refine ⟨fun hu => ?_, fun hu hw => ?_, fun hu hw hl => ?_, fun e he => ?_⟩
  · unfold withdraw_stake
    simp [hu]
  · have hchk : st.check_if_unlocked now = .error .AlreadyWithdrawn := by
      unfold UserStake.check_if_unlocked
      simp [hw]
    unfold withdraw_stake
    simp [hu, hchk]
  · have hchk : st.check_if_unlocked now = .error .StillLocked := by
      unfold UserStake.check_if_unlocked
      simp [hw, hl]
    unfold withdraw_stake
    simp [hu, hchk]
  · constructor
    · unfold applyWithdraw
      rw [he]
    · unfold withdrawTransferred
      rw [he]

/-- Witness for C3: a stranger's call, a repeat call, and an early call on
concrete positions, each failing as stated and moving nothing. -/
theorem claim_C3_withdraw_guards_witness :
    withdraw_stake 9 ⟨7, 100, 2, 0, 50, false, 0⟩ ⟨0, 1000⟩ 60 =
      .error (.vaultErr .UnauthorizedUser) ∧
    withdraw_stake 7 ⟨7, 100, 2, 0, 50, true, 0⟩ ⟨5, 1000⟩ 60 =
      .error (.vaultErr .AlreadyWithdrawn) ∧
    withdraw_stake 7 ⟨7, 100, 2, 0, 50, false, 0⟩ ⟨5, 1000⟩ 49 =
      .error (.vaultErr .StillLocked) ∧
    applyWithdraw 9 ⟨7, 100, 2, 0, 50, false, 0⟩ ⟨0, 1000⟩ 60 =
      (⟨7, 100, 2, 0, 50, false, 0⟩, ⟨0, 1000⟩) ∧
    withdrawTransferred 9 ⟨7, 100, 2, 0, 50, false, 0⟩ ⟨0, 1000⟩ 60 = 0 := by
  refine ⟨(claim_C3_withdraw_guards 9 ⟨7, 100, 2, 0, 50, false, 0⟩ ⟨0, 1000⟩
      60).1 (by decide),
    (claim_C3_withdraw_guards 7 ⟨7, 100, 2, 0, 50, true, 0⟩ ⟨5, 1000⟩
      60).2.1 rfl rfl,
    (claim_C3_withdraw_guards 7 ⟨7, 100, 2, 0, 50, false, 0⟩ ⟨5, 1000⟩
      49).2.2.1 rfl rfl (by decide),
    ((claim_C3_withdraw_guards 9 ⟨7, 100, 2, 0, 50, false, 0⟩ ⟨0, 1000⟩
      60).2.2.2 (.vaultErr .UnauthorizedUser) ?_).1,
    ((claim_C3_withdraw_guards 9 ⟨7, 100, 2, 0, 50, false, 0⟩ ⟨0, 1000⟩
      60).2.2.2 (.vaultErr .UnauthorizedUser) ?_).2⟩
  · exact (claim_C3_withdraw_guards 9 ⟨7, 100, 2, 0, 50, false, 0⟩ ⟨0, 1000⟩
      60).1 (by decide)
  · exact (claim_C3_withdraw_guards 9 ⟨7, 100, 2, 0, 50, false, 0⟩ ⟨0, 1000⟩
      60).1 (by decide)

/-- C8: a successful `withdraw_stake` mutates exactly one field of the
position, flipping `is_withdrawn` to true, and leaves owner, principal,
term, creation time, maturity and bump unchanged; the outcome still carries
the position, so no operation deletes it. -/
theorem claim_C8_withdraw_frame (caller : Nat) (st : UserStake)
    (bal : Balances) (now : Int) (out : WithdrawOutcome)
    (hok : withdraw_stake caller st bal now = .ok out) :
    out.user_stake = st.mark_as_withdrawn ∧
    out.user_stake.is_withdrawn = true ∧
    out.user_stake.user = st.user ∧
    out.user_stake.amount = st.amount ∧
    out.user_stake.stake_years = st.stake_years ∧
    out.user_stake.stake_time = st.stake_time ∧
    out.user_stake.unlock_time = st.unlock_time ∧
    out.user_stake.bump = st.bump := by
  unfold withdraw_stake at hok
  split at hok
  · simp at hok
  · split at hok
    · simp at hok
    · split at hok
      · simp at hok
      · split at hok
        · simp at hok
        · simp at hok
          subst hok
          simp [UserStake.mark_as_withdrawn]

/-- Witness for C8 on a concrete matured 2-year position. -/
theorem claim_C8_withdraw_frame_witness :
    (⟨⟨7, 100, 2, 0, 50, true, 0⟩, ⟨200, 800⟩, 200⟩ :
        WithdrawOutcome).user_stake =
      UserStake.mark_as_withdrawn ⟨7, 100, 2, 0, 50, false, 0⟩ ∧
    (⟨⟨7, 100, 2, 0, 50, true, 0⟩, ⟨200, 800⟩, 200⟩ :
        WithdrawOutcome).user_stake.is_withdrawn = true :=
  ⟨(claim_C8_withdraw_frame 7 ⟨7, 100, 2, 0, 50, false, 0⟩ ⟨0, 1000⟩ 60
      ⟨⟨7, 100, 2, 0, 50, true, 0⟩, ⟨200, 800⟩, 200⟩ rfl).1,
   (claim_C8_withdraw_frame 7 ⟨7, 100, 2, 0, 50, false, 0⟩ ⟨0, 1000⟩ 60
      ⟨⟨7, 100, 2, 0, 50, true, 0⟩, ⟨200, 800⟩, 200⟩ rfl).2.1⟩

/-- A `check_if_unlocked` success means not withdrawn and matured. -/
lemma check_if_unlocked_ok_elim (st : UserStake) (now : Int) (u : Unit)
    (h : st.check_if_unlocked now = .ok u) :
    st.is_withdrawn = false ∧ st.unlock_time ≤ now := by
  unfold UserStake.check_if_unlocked at h
  split at h
  · simp at h
  · split at h
    · simp at h
    · rename_i h1 h2
      exact ⟨by simpa using h1, by omega⟩

/-- A `calculate_total_return` success is the in-range checked product. -/
lemma calculate_total_return_ok_elim (st : UserStake) (tr : Nat)
    (h : st.calculate_total_return = .ok tr) :
    tr = st.amount * st.get_multiplier ∧
    st.amount * st.get_multiplier ≤ U64_MAX := by
  unfold UserStake.calculate_total_return checked_mul_u64 at h
  split at h
  · simp at h
  · rename_i r heq
    split at heq
    · rename_i hle
      simp only [Option.some.injEq] at heq
      simp only [Except.ok.injEq] at h
      subst h
      exact ⟨heq.symm, hle⟩
    · simp at heq

/-- Inversion for a successful `withdraw_stake`: the caller is the owner,
the stake was unwithdrawn and matured, the payout fit u64 and the custody
balance covered it, and the outcome is the flipped position plus the moved
payout. -/
lemma withdraw_stake_ok_elim (caller : Nat) (st : UserStake) (bal : Balances)
    (now : Int) (out : WithdrawOutcome)
    (hok : withdraw_stake caller st bal now = .ok out) :
    st.user = caller ∧ st.is_withdrawn = false ∧ st.unlock_time ≤ now ∧
    st.amount * st.get_multiplier ≤ U64_MAX ∧
    st.amount * st.get_multiplier ≤ bal.vaultTokens ∧
    out = { user_stake := st.mark_as_withdrawn,
            balances :=
              { userTokens :=
                  bal.userTokens + st.amount * st.get_multiplier,
                vaultTokens :=
                  bal.vaultTokens - st.amount * st.get_multiplier },
            transferred := st.amount * st.get_multiplier } := by
  unfold withdraw_stake at hok
  split at hok
  · simp at hok
  · rename_i hu
    rw [not_ne_iff] at hu
    split at hok
    · simp at hok
    · rename_i u hchk
      split at hok
      · simp at hok
      · rename_i tr hret
        split at hok
        · simp at hok
        · rename_i v w hmv
          obtain ⟨hw, hl⟩ := check_if_unlocked_ok_elim st now u hchk
          obtain ⟨htr, hle⟩ := calculate_total_return_ok_elim st tr hret
          obtain ⟨hcov, hp⟩ := moveTokens_ok_eq _ _ _ _ hmv
          subst htr
          rw [Prod.mk.injEq] at hp
          obtain ⟨hv, hw2⟩ := hp
          subst hv
          subst hw2
          simp only [Except.ok.injEq] at hok
          subst hok
          exact ⟨hu, hw, hl, hle, hcov, rfl⟩

/-- C2: a successful `withdraw_stake` transfers exactly
`amount * get_multiplier` tokens to the user — a 2-year stake pays exactly
twice the principal — and an owner's withdrawal of a matured, unwithdrawn
stake whose checked product exceeds the u64 range fails `MathOverflow`. -/
theorem claim_C2_payout (caller : Nat) (st : UserStake) (bal : Balances)
    (now : Int) :
    (∀ out, withdraw_stake caller st bal now = .ok out →
      out.transferred = st.amount * st.get_multiplier ∧
      (st.stake_years = 2 → out.transferred = 2 * st.amount) ∧
      out.balances.userTokens =
        bal.userTokens + st.amount * st.get_multiplier) ∧
    (st.user = caller → st.is_withdrawn = false → st.unlock_time ≤ now →
      U64_MAX < st.amount * st.get_multiplier →
      withdraw_stake caller st bal now =
        .error (.vaultErr .MathOverflow)) := by
  constructor
  · intro out hok
    obtain ⟨hu, hw, hl, hle, hcov, hout⟩ :=
      withdraw_stake_ok_elim caller st bal now out hok
    subst hout
    refine ⟨rfl, fun h2 => ?_, rfl⟩
    have hm : st.get_multiplier = 2 := by
      unfold UserStake.get_multiplier
      simp [h2]
    show st.amount * st.get_multiplier = 2 * st.amount
    rw [hm]
    ring
  · intro hu hw hl hov
    have hchk : st.check_if_unlocked now = .ok () := by
      unfold UserStake.check_if_unlocked
      simp [hw, not_lt.2 hl]
    have hret : st.calculate_total_return = .error .MathOverflow := by
      unfold UserStake.calculate_total_return checked_mul_u64
      simp [Nat.not_le.2 hov]
    unfold withdraw_stake
    simp [hu, hchk, hret]

/-- Witness for C2: a concrete 2-year stake of 100 pays exactly 200, and a
2-year stake of 2^63 overflows. -/
theorem claim_C2_payout_witness :
    withdraw_stake 7 ⟨7, 100, 2, 0, 50, false, 0⟩ ⟨0, 1000⟩ 60 =
      .ok ⟨⟨7, 100, 2, 0, 50, true, 0⟩, ⟨200, 800⟩, 200⟩ ∧
    (⟨⟨7, 100, 2, 0, 50, true, 0⟩, ⟨200, 800⟩, 200⟩ :
        WithdrawOutcome).transferred = 200 ∧
    withdraw_stake 7 ⟨7, 9223372036854775808, 2, 0, 50, false, 0⟩ ⟨0, 0⟩ 60 =
      .error (.vaultErr .MathOverflow) :=
  ⟨by decide,
   ((claim_C2_payout 7 ⟨7, 100, 2, 0, 50, false, 0⟩ ⟨0, 1000⟩ 60).1
      ⟨⟨7, 100, 2, 0, 50, true, 0⟩, ⟨200, 800⟩, 200⟩ (by decide)).2.1 rfl,
   (claim_C2_payout 7 ⟨7, 9223372036854775808, 2, 0, 50, false, 0⟩ ⟨0, 0⟩
      60).2 rfl rfl (by decide) (by decide)⟩

/-- C4: every successful `stake_tokens` persists
`unlock_time = now + stake_years * 31536000` with the stored term in
{1, 2}; and a valid, funded stake whose maturity addition leaves the i64
range fails with `MathOverflow`. -/
theorem claim_C4_maturity (user amount stake_years : Nat) (bal : Balances)
    (now : Int) (bump : Nat) :
    (∀ out, (stake_tokens user amount stake_years bal now bump).2 = .ok out →
      out.user_stake.unlock_time = now + (stake_years : Int) * 31536000 ∧
      out.user_stake.stake_time = now ∧
      (out.user_stake.stake_years = 1 ∨ out.user_stake.stake_years = 2)) ∧
    (0 < amount → 1 ≤ stake_years → stake_years ≤ 2 →
      amount ≤ bal.userTokens →
      I64_MAX < now + (stake_years : Int) * 31536000 →
      (stake_tokens user amount stake_years bal now bump).2 =
        .error (.vaultErr .MathOverflow)) := by
  constructor
  · intro out hok
    obtain ⟨ha, h1, h2, hbal, hmin, hmax, hout⟩ :=
      stake_tokens_ok_elim user amount stake_years bal now bump out hok
    subst hout
    refine ⟨?_, rfl, ?_⟩
    · simp [stakedPosition, seconds_per_year_eq]
    · simp only [stakedPosition]
      omega
  · intro ha h1 h2 hbal hov
    have ha' : ¬ amount = 0 := by omega
    have hins : ¬ bal.userTokens < amount := by omega
    have hnr : ¬ (I64_MIN ≤ now + (stake_years : Int) * seconds_per_year ∧
        now + (stake_years : Int) * seconds_per_year ≤ I64_MAX) := by
      rw [seconds_per_year_eq]
      intro hc
      exact absurd hc.2 (not_le.2 hov)
    unfold stake_tokens moveTokens UserStake.create_stake checked_add_i64
    simp [ha', h1, h2, hins, hnr]

/-- Witness for C4: a 2-year stake at time 1000 matures at 63073000, and a
1-year stake at the maximum i64 timestamp fails `MathOverflow`. -/
theorem claim_C4_maturity_witness :
    (⟨⟨1, 10, 2, 1000, 63073000, false, 0⟩, ⟨0, 15⟩⟩ :
        StakeOutcome).user_stake.unlock_time =
      1000 + (2 : Int) * 31536000 ∧
    (stake_tokens 1 5 1 ⟨100, 0⟩ 9223372036854775807 0).2 =
      .error (.vaultErr .MathOverflow) :=
  ⟨((claim_C4_maturity 1 10 2 ⟨10, 5⟩ 1000 0).1
      ⟨⟨1, 10, 2, 1000, 63073000, false, 0⟩, ⟨0, 15⟩⟩ (by decide)).1,
   (claim_C4_maturity 1 5 1 ⟨100, 0⟩ 9223372036854775807 0).2 (by decide)
      (by decide) (by decide) (by decide) (by decide)⟩

/-- C10: every position created by a successful `stake_tokens` starts with
`is_withdrawn = false` and with `unlock_time` strictly after its
`stake_time`. -/
theorem claim_C10_fresh_position (user amount stake_years : Nat)
    (bal : Balances) (now : Int) (bump : Nat) (out : StakeOutcome)
    (hok : (stake_tokens user amount stake_years bal now bump).2 = .ok out) :
    out.user_stake.is_withdrawn = false ∧
    out.user_stake.stake_time < out.user_stake.unlock_time := by
  obtain ⟨ha, h1, h2, hbal, hmin, hmax, hout⟩ :=
    stake_tokens_ok_elim user amount stake_years bal now bump out hok
  subst hout
  constructor
  · rfl
  · simp only [stakedPosition, seconds_per_year_eq]
    omega

/-- Witness for C10 on a concrete successful 1-year stake. -/
theorem claim_C10_fresh_position_witness :
    (⟨⟨1, 10, 1, 0, 31536000, false, 0⟩, ⟨0, 10⟩⟩ :
        StakeOutcome).user_stake.is_withdrawn = false ∧
    (⟨⟨1, 10, 1, 0, 31536000, false, 0⟩, ⟨0, 10⟩⟩ :
        StakeOutcome).user_stake.stake_time <
      (⟨⟨1, 10, 1, 0, 31536000, false, 0⟩, ⟨0, 10⟩⟩ :
        StakeOutcome).user_stake.unlock_time :=
  claim_C10_fresh_position 1 10 1 ⟨10, 0⟩ 0 0
    ⟨⟨1, 10, 1, 0, 31536000, false, 0⟩, ⟨0, 10⟩⟩ (by decide)

/-- C5 as stated is false: with `amount = 0` and `termYears = 3` the
instruction fails with `InvalidAmount`, not `InvalidStakePeriod`, because
the amount guard runs before the term guard. -/
theorem claim_C5_counterexample :
    (stake_tokens 1 0 3 ⟨100, 0⟩ 0 0).2 =
      .error (.vaultErr .InvalidAmount) ∧
    (stake_tokens 1 0 3 ⟨100, 0⟩ 0 0).2 ≠
      .error (.vaultErr .InvalidStakePeriod) := by
  decide

/-- C5 amended: `stake_tokens` fails `InvalidAmount` whenever `amount = 0`
(no custody call, no state created); it fails `InvalidStakePeriod` whenever
`amount > 0` and the term is outside {1, 2}; and for `amount > 0` with a
term in {1, 2} neither validation error occurs. -/
theorem claim_C5_validation (user amount stake_years : Nat) (bal : Balances)
    (now : Int) (bump : Nat) :
    (amount = 0 →
      stake_tokens user amount stake_years bal now bump =
        ([], .error (.vaultErr .InvalidAmount))) ∧
    (0 < amount → (stake_years < 1 ∨ 2 < stake_years) →
      stake_tokens user amount stake_years bal now bump =
        ([], .error (.vaultErr .InvalidStakePeriod))) ∧
    (0 < amount → 1 ≤ stake_years → stake_years ≤ 2 →
      (stake_tokens user amount stake_years bal now bump).2 ≠
        .error (.vaultErr .InvalidAmount) ∧
      (stake_tokens user amount stake_years bal now bump).2 ≠
        .error (.vaultErr .InvalidStakePeriod)) := by
  refine ⟨fun h0 => ?_, fun ha hy => ?_, fun ha h1 h2 => ?_⟩
  · unfold stake_tokens
    simp [h0]
  · have ha' : ¬ amount = 0 := by omega
    have hy' : ¬ (1 ≤ stake_years ∧ stake_years ≤ 2) := by omega
    unfold stake_tokens
    simp [ha', hy']
  · have ha' : ¬ amount = 0 := by omega
    unfold stake_tokens
    rcases hmv : moveTokens bal.userTokens bal.vaultTokens amount
      with e | ⟨u, v⟩
    · simp [ha', h1, h2, hmv, moveTokens_error_eq _ _ _ _ hmv]
    · rcases hcs : UserStake.create_stake user amount stake_years now bump
        with e | st
      · simp [ha', h1, h2, hmv, hcs, create_stake_error_eq _ _ _ _ _ _ hcs]
      · simp [ha', h1, h2, hmv, hcs]

/-- Witness for the amended C5 on concrete inputs. -/
theorem claim_C5_validation_witness :
    stake_tokens 2 0 1 ⟨50, 0⟩ 0 0 =
      ([], .error (.vaultErr .InvalidAmount)) ∧
    stake_tokens 2 6 3 ⟨50, 0⟩ 0 0 =
      ([], .error (.vaultErr .InvalidStakePeriod)) ∧
    (stake_tokens 2 6 1 ⟨50, 0⟩ 0 0).2 ≠
      .error (.vaultErr .InvalidAmount) :=
  ⟨(claim_C5_validation 2 0 1 ⟨50, 0⟩ 0 0).1 rfl,
   (claim_C5_validation 2 6 3 ⟨50, 0⟩ 0 0).2.1 (by decide)
     (Or.inr (by decide)),
   ((claim_C5_validation 2 6 1 ⟨50, 0⟩ 0 0).2.2 (by decide) (by decide)
     (by decide)).1⟩

/-- C7 as stated is false: on a funded 1-year stake whose maturity addition
overflows i64, the run fails `MathOverflow` although the Custody Adapter
was already invoked — the trace puts the custody transfer strictly before
the maturity computation, so neither the computation nor the overflow
failure precedes the transfer. -/
theorem claim_C7_counterexample :
    (stake_tokens 1 5 1 ⟨100, 0⟩ I64_MAX 0).2 =
      .error (.vaultErr .MathOverflow) ∧
    (stake_tokens 1 5 1 ⟨100, 0⟩ I64_MAX 0).1 =
      [.custodyTransferInvoked, .maturityComputed] ∧
    StakeStep.custodyTransferInvoked ∈
      (stake_tokens 1 5 1 ⟨100, 0⟩ I64_MAX 0).1 := by
  decide

/-- C7 amended: in `stake_tokens` the custody transfer is invoked before
`maturesAt` is computed — a `MathOverflow` failure arises only after the
custody call — and the position is persisted after the transfer. -/
theorem claim_C7_transfer_before_maturity (user amount stake_years : Nat)
    (bal : Balances) (now : Int) (bump : Nat) :
    ((stake_tokens user amount stake_years bal now bump).2 =
        .error (.vaultErr .MathOverflow) →
      (stake_tokens user amount stake_years bal now bump).1 =
        [.custodyTransferInvoked, .maturityComputed]) ∧
    (.positionPersisted ∈
        (stake_tokens user amount stake_years bal now bump).1 →
      (stake_tokens user amount stake_years bal now bump).1 =
        [.custodyTransferInvoked, .maturityComputed, .positionPersisted,
         .eventEmitted]) := by
  rcases stake_tokens_shape user amount stake_years bal now bump with
    h | h | h | h | ⟨out, h⟩ <;>
    rw [h] <;>
    constructor <;>
    intro hx <;>
    simp_all

/-- Witness for the amended C7: an overflowing 2-year stake whose trace
shows the custody call first, and a successful 1-year stake whose trace
persists the position after the transfer. -/
theorem claim_C7_transfer_before_maturity_witness :
    (stake_tokens 1 7 2 ⟨50, 0⟩ I64_MAX 0).1 =
      [.custodyTransferInvoked, .maturityComputed] ∧
    (stake_tokens 1 10 1 ⟨10, 0⟩ 0 0).1 =
      [.custodyTransferInvoked, .maturityComputed, .positionPersisted,
       .eventEmitted] :=
  ⟨(claim_C7_transfer_before_maturity 1 7 2 ⟨50, 0⟩ I64_MAX 0).1 (by decide),
   (claim_C7_transfer_before_maturity 1 10 1 ⟨10, 0⟩ 0 0).2 (by decide)⟩
